import Mathlib

/-!
Shallow embedding of the state-reconciliation engine of the notes client
(`src/notes_frontend/src/App.js`).

The program is a single React component.  Its reactive state is the tuple
(`notes`, `loadingList`, `loadingSave`, `loadingDelete`, `error`,
`selectedId`).  Every mutation of that state happens in one of the
operations `fetchNotes`, `createNote`, `saveNote`, `deleteNote` or in the
two inline edit handlers of the editor (title / content `onChange`).

Each operation is `async`: it runs synchronously up to its single `await
fetch(...)` boundary and then continues synchronously once the network
result arrives.  We embed each operation as explicit state-passing
functions, split at the suspension point:

* the part before the `await` is a function `AppState → ... → AppState`;
* the part after the `await` takes the network outcome,
  `Except String τ` (`.ok` for a 2xx response with parsed body, `.error`
  for the caught exception's message).

JavaScript details reproduced faithfully:

* `notes` entries carry `id`, `title`, `content`, `created_at`,
  `updated_at`; `id` is a JS number, embedded as `Int` (server ids are
  non-negative, pending ids come from
  `Math.floor(Math.random() * 1e9) * -1` and are embedded as the
  parameter `tempId`, an arbitrary draw in that range);
* the guard `!selectedId` on line 100 is JS falsiness: it is true both
  for `null` and for the number `0`, embedded by `jsSelFalsy`;
* the rollback `fetchNotes()` called inside `createNote`'s catch block
  (line 139) is the closure created at render time, so the `selectedId`
  it reads on line 100 is the render-time value, not the `tempId` set
  meanwhile; `fetchSettle` therefore takes that closure value as an
  explicit argument `closureSel`;
* `selectedId === id` on line 170 compares a possibly-`null` value with
  a number, embedded as equality of `Option Int` with `some id`.
-/

/-- A note as stored in the `notes` array: the fields the code reads and
writes (`id`, `title`, `content`, `created_at`, `updated_at`). -/
structure Note where
  id : Int
  title : String
  content : String
  created_at : String
  updated_at : String
deriving DecidableEq

/-- The component's reactive state: the six `useState` slots of `App`. -/
structure AppState where
  notes : List Note
  loadingList : Bool
  loadingSave : Bool
  loadingDelete : Bool
  error : Option String
  selectedId : Option Int
deriving DecidableEq

/-- JS falsiness of the `selectedId` value: `!selectedId` is `true` when
`selectedId` is `null` and also when it is the number `0`. -/
def jsSelFalsy : Option Int → Bool
  | none => true
  | some v => v == 0

/-- The synchronous prefix of `fetchNotes` (line 95): `setLoadingList(true)`
before suspending at `await fetch`. -/
def fetchStart (s : AppState) : AppState :=
  { s with loadingList := true }

/-- The continuation of `fetchNotes` after its `await` (lines 97-108).
On success (`.ok data`): `setNotes(data)`; then, if `data` is non-empty and
the render-closure `selectedId` is falsy, `setSelectedId(data[0].id)`;
then `setError(null)`.  On failure: `setError(e.message)`.  Either way the
`finally` block runs `setLoadingList(false)`. -/
def fetchSettle (closureSel : Option Int) (s : AppState)
    (result : Except String (List Note)) : AppState :=
  match result with
  | .ok data =>
      let s2 := { s with notes := data }
      let s3 :=
        if 0 < data.length ∧ jsSelFalsy closureSel then
          { s2 with selectedId := data.head?.map Note.id }
        else s2
      { s3 with error := none, loadingList := false }
  | .error msg =>
      { s with error := some msg, loadingList := false }

/-- A complete standalone run of `fetchNotes` (lines 93-109) from a steady
state: here the closure `selectedId` agrees with the state's. -/
def fetchNotes (s : AppState) (result : Except String (List Note)) : AppState :=
  fetchSettle s.selectedId (fetchStart s) result

/-- The optimistic note built on line 121:
`{ id: tempId, title: "Untitled", content: "", created_at: now, updated_at: now }`. -/
def mkOptimistic (tempId : Int) (now : String) : Note :=
  { id := tempId, title := "Untitled", content := "", created_at := now,
    updated_at := now }

/-- The synchronous prefix of `createNote` (lines 117-123):
`setLoadingSave(true)`; synthesize `tempId` (the random draw, passed in);
prepend the optimistic note; `setSelectedId(tempId)`.  All before the
remote call is issued. -/
def createOptimistic (s : AppState) (tempId : Int) (now : String) : AppState :=
  { s with loadingSave := true,
           notes := mkOptimistic tempId now :: s.notes,
           selectedId := some tempId }

/-- The success continuation of `createNote` (lines 131-135):
`setNotes(prev => [created, ...prev.filter(n => n.id !== tempId)])`;
`setSelectedId(created.id)`; `setError(null)`; `finally` clears
`loadingSave`. -/
def createSuccess (s : AppState) (tempId : Int) (created : Note) : AppState :=
  { s with notes := created :: s.notes.filter (fun n => n.id ≠ tempId),
           selectedId := some created.id,
           error := none,
           loadingSave := false }

/-- The failure continuation of `createNote` (lines 136-142):
`setError(e.message)`, then `fetchNotes()` is invoked — which runs
synchronously up to its own `await`, i.e. performs `setLoadingList(true)` —
and the `finally` block clears `loadingSave`.  The pending note is NOT
removed here; the state then waits for the rollback fetch to settle via
`fetchSettle` (with the render-closure `selectedId`). -/
def createFail (s : AppState) (msg : String) : AppState :=
  { s with error := some msg, loadingList := true, loadingSave := false }

/-- A run of `saveNote(updated)` (lines 145-162): `setLoadingSave(true)`,
await; on success `setNotes(prev => prev.map(n => n.id === saved.id ? saved : n))`
and `setError(null)`; on failure `setError(e.message)`; `finally` clears
`loadingSave`. -/
def saveNote (s : AppState) (result : Except String Note) : AppState :=
  match result with
  | .ok saved =>
      { s with notes := s.notes.map (fun n => if n.id = saved.id then saved else n),
               error := none,
               loadingSave := false }
  | .error msg =>
      { s with error := some msg, loadingSave := false }

/-- A run of `deleteNote(id)` (lines 164-182) from a steady state:
`setLoadingDelete(true)`, await; on success
`setNotes(prev => prev.filter(n => n.id !== id))`, then if
`selectedId === id` the selection becomes the head of
`notes.filter(n => n.id !== id)` (the render-closure `notes`) or `null`
if none remain, then `setError(null)`; on failure `setError(e.message)`;
`finally` clears `loadingDelete`. -/
def deleteNote (s : AppState) (id : Int) (result : Except String Unit) : AppState :=
  match result with
  | .ok _ =>
      { s with notes := s.notes.filter (fun n => n.id ≠ id),
               selectedId :=
                 if s.selectedId = some id then
                   ((s.notes.filter (fun n => n.id ≠ id)).head?).map Note.id
                 else s.selectedId,
               error := none,
               loadingDelete := false }
  | .error msg =>
      { s with error := some msg, loadingDelete := false }

/-- The title editor's `onChange` (lines 306-308):
`setNotes(prev => prev.map(n => n.id === selectedNote.id ? { ...n, title: v } : n))`.
Pure, synchronous, touches only `notes`. -/
def editTitle (s : AppState) (id : Int) (v : String) : AppState :=
  { s with notes :=
      s.notes.map (fun n => if n.id = id then { n with title := v } else n) }

/-- The content editor's `onChange` (lines 313-315): same shape as the
title editor, patching `content`. -/
def editContent (s : AppState) (id : Int) (v : String) : AppState :=
  { s with notes :=
      s.notes.map (fun n => if n.id = id then { n with content := v } else n) }

/-- The Selection invariant of the spec, as a decidable check: if
`selectedId` is non-none it is the `id` of some note in the collection. -/
def selOk (s : AppState) : Bool :=
  match s.selectedId with
  | none => true
  | some i => s.notes.any (fun n => n.id = i)

/-- The full state after the create-failure rollback path: optimistic
insert, remote failure, and the rollback `fetchNotes` settling with
`result`.  The closure `selectedId` read by the rollback fetch is the
pre-create value `s.selectedId`. -/
def createFailRollback (s : AppState) (tempId : Int) (now : String)
    (msg : String) (result : Except String (List Note)) : AppState :=
  fetchSettle s.selectedId (createFail (createOptimistic s tempId now) msg) result

/-! ### Concrete values used by witnesses and counterexamples -/

/-- A confirmed server note with id 1. -/
def nA : Note := ⟨1, "a", "", "", ""⟩

/-- A confirmed server note with id 2. -/
def nB : Note := ⟨2, "b", "", "", ""⟩

/-- A confirmed server note with id 5. -/
def n5 : Note := ⟨5, "t", "", "", ""⟩

/-- A confirmed server note with id 0 (server ids are non-negative, so 0
is a legal server id). -/
def n0 : Note := ⟨0, "z", "", "", ""⟩

/-- A server note with id 7, as returned by a successful create. -/
def n7 : Note := ⟨7, "c", "", "2024-01-02", "2024-01-02"⟩

/-- The steady state with an empty collection and no selection. -/
def sEmpty : AppState := ⟨[], false, false, false, none, none⟩

/-! ### Claims -/

/-- C6: for every state and every `save` or `delete` whose remote call
fails, the note collection is left exactly unchanged (the note keeps its
locally edited fields, nothing is removed), the selection is unchanged,
and the error slot holds the failure's message. -/
theorem save_delete_failure_atomic (s : AppState) (id : Int) (m m2 : String) :
    ((saveNote s (.error m)).notes = s.notes
      ∧ (saveNote s (.error m)).selectedId = s.selectedId
      ∧ (saveNote s (.error m)).error = some m)
    ∧ ((deleteNote s id (.error m2)).notes = s.notes
      ∧ (deleteNote s id (.error m2)).selectedId = s.selectedId
      ∧ (deleteNote s id (.error m2)).error = some m2) :=
  ⟨⟨rfl, rfl, rfl⟩, ⟨rfl, rfl, rfl⟩⟩

/-- C10: the create() failure path never removes the pending note
directly: right after the failure step it is still at the head, and if
the rollback refresh itself fails the pending note remains in the
collection, still selected, and the error slot ends holding the refresh
failure's message (the last `setError` executed). -/
theorem create_rollback_refresh_failure (s : AppState) (tempId : Int)
    (now createMsg refreshMsg : String) :
    (createFail (createOptimistic s tempId now) createMsg).notes
        = mkOptimistic tempId now :: s.notes
    ∧ (createFailRollback s tempId now createMsg (.error refreshMsg)).notes
        = mkOptimistic tempId now :: s.notes
    ∧ (createFailRollback s tempId now createMsg (.error refreshMsg)).selectedId
        = some tempId
    ∧ (createFailRollback s tempId now createMsg (.error refreshMsg)).error
        = some refreshMsg :=
  ⟨rfl, rfl, rfl, rfl⟩

/-- C7: selection continuity after a successful deletion.
If the deleted id was selected and other notes remain, the
selection becomes the first remaining note's id; if it was the only note,
the selection becomes none; if the deleted id was not selected, the
selection is unchanged. -/
theorem delete_selection_continuity (s : AppState) (id : Int) :
    (s.selectedId = some id →
      ∀ m ms, s.notes.filter (fun n => n.id ≠ id) = m :: ms →
        (deleteNote s id (.ok ())).selectedId = some m.id)
    ∧ (s.selectedId = some id →
      s.notes.filter (fun n => n.id ≠ id) = [] →
        (deleteNote s id (.ok ())).selectedId = none)
    ∧ (s.selectedId ≠ some id →
        (deleteNote s id (.ok ())).selectedId = s.selectedId) := by
  refine ⟨?_, ?_, ?_⟩
  · intro h m ms hf
    show (if s.selectedId = some id then
        ((s.notes.filter (fun n => n.id ≠ id)).head?).map Note.id
      else s.selectedId) = some m.id
    rw [if_pos h, hf]
    rfl
  · intro h hf
    show (if s.selectedId = some id then
        ((s.notes.filter (fun n => n.id ≠ id)).head?).map Note.id
      else s.selectedId) = none
    rw [if_pos h, hf]
    rfl
  · intro h
    show (if s.selectedId = some id then
        ((s.notes.filter (fun n => n.id ≠ id)).head?).map Note.id
      else s.selectedId) = s.selectedId
    rw [if_neg h]

/-- Witness for C7: Scenario A — collection `[nA, nB]`, selection 2,
`delete(2)` succeeds, so the selection becomes 1; and in a state where 1
is selected, deleting 2 leaves the selection at 1. -/
theorem delete_selection_continuity_witness :
    (deleteNote ⟨[nA, nB], false, false, false, none, some 2⟩ 2 (.ok ())).selectedId
        = some nA.id
    ∧ (deleteNote ⟨[nA, nB], false, false, false, none, some 1⟩ 2 (.ok ())).selectedId
        = some 1 :=
  ⟨(delete_selection_continuity ⟨[nA, nB], false, false, false, none, some 2⟩ 2).1
      (by decide) nA [] (by decide),
   (delete_selection_continuity ⟨[nA, nB], false, false, false, none, some 1⟩ 2).2.2
      (by decide)⟩

/-- C5 counterexample: after a failed `create()` whose automatic rollback
refresh succeeds, the error slot is `none` — the create failure's message
`"Failed to create note (500)"` does NOT remain visible, because the
successful rollback `fetchNotes` runs `setError(null)`.  (The second
conjunct shows the message had been set by the failure step itself, so it
is the rollback's success that cleared it.) -/
theorem create_error_cleared_by_rollback :
    (createFailRollback sEmpty (-5) "T" "Failed to create note (500)"
        (.ok [nA])).error = none
    ∧ (createFail (createOptimistic sEmpty (-5) "T")
        "Failed to create note (500)").error = some "Failed to create note (500)" :=
  ⟨rfl, rfl⟩

/-- C5 (amended): every successful completion of refresh/create/save/delete
leaves the error slot `none`, and every failed completion leaves it holding
that failure's message (newest failure wins); after a failed `create()`,
the rollback refresh decides the final value: if it succeeds the error is
cleared, and if it fails the refresh failure's message is what remains. -/
theorem error_slot_latest_wins (s : AppState) (data : List Note)
    (msg : String) (tempId : Int) (created : Note) (now : String)
    (saved : Note) (id : Int) (createMsg refreshMsg : String) :
    (fetchNotes s (.ok data)).error = none
    ∧ (fetchNotes s (.error msg)).error = some msg
    ∧ (createSuccess s tempId created).error = none
    ∧ (createFail s msg).error = some msg
    ∧ (saveNote s (.ok saved)).error = none
    ∧ (saveNote s (.error msg)).error = some msg
    ∧ (deleteNote s id (.ok ())).error = none
    ∧ (deleteNote s id (.error msg)).error = some msg
    ∧ (createFailRollback s tempId now createMsg (.ok data)).error = none
    ∧ (createFailRollback s tempId now createMsg (.error refreshMsg)).error
        = some refreshMsg :=
  ⟨rfl, rfl, rfl, rfl, rfl, rfl, rfl, rfl, rfl, rfl⟩

/-- C3: for every state, a `create()` whose remote call succeeds with a
server note whose id is fresh (different from the pending id and from
every non-pending id in the collection) leaves exactly one note with the
server id, zero notes with the pending id, the server note at the head,
the rest of the collection preserved in order, and the selection on the
server id. -/
theorem create_success_reconciliation (s : AppState) (tempId : Int)
    (created : Note) (h1 : created.id ≠ tempId)
    (h2 : ∀ n ∈ s.notes, n.id = created.id → n.id = tempId) :
    ((createSuccess s tempId created).notes.countP (fun n => n.id = created.id)) = 1
    ∧ ((createSuccess s tempId created).notes.countP (fun n => n.id = tempId)) = 0
    ∧ (createSuccess s tempId created).notes.head? = some created
    ∧ (createSuccess s tempId created).notes.tail
        = s.notes.filter (fun n => n.id ≠ tempId)
    ∧ (createSuccess s tempId created).selectedId = some created.id := by
  have hz : List.countP (fun n => n.id = created.id)
      (s.notes.filter (fun n => n.id ≠ tempId)) = 0 := by
    rw [List.countP_eq_zero]
    intro a ha
    rw [List.mem_filter] at ha
    have hne : a.id ≠ tempId := by simpa using ha.2
    simp only [decide_eq_true_eq]
    intro hac
    exact hne (h2 a ha.1 hac)
  have hz2 : List.countP (fun n => n.id = tempId)
      (s.notes.filter (fun n => n.id ≠ tempId)) = 0 := by
    rw [List.countP_eq_zero]
    intro a ha
    rw [List.mem_filter] at ha
    simpa using ha.2
  refine ⟨?_, ?_, rfl, rfl, rfl⟩
  · show List.countP (fun n => n.id = created.id)
        (created :: s.notes.filter (fun n => n.id ≠ tempId)) = 1
    rw [List.countP_cons_of_pos _ _ (by simp), hz]
  · show List.countP (fun n => n.id = tempId)
        (created :: s.notes.filter (fun n => n.id ≠ tempId)) = 0
    rw [List.countP_cons_of_neg _ _ (by simpa using h1), hz2]

/-- Witness for C3: Scenario C — from collection `[nA]` (id 1, selected),
`create()` optimistically inserts pending id `-5` and the remote call
succeeds returning the server note with id 7; the instantiated conclusion
gives collection `[n7, nA]` with selection 7. -/
theorem create_success_reconciliation_witness :
    ((createSuccess (createOptimistic ⟨[nA], false, false, false, none, some 1⟩
        (-5) "T") (-5) n7).notes.countP (fun n => n.id = n7.id)) = 1
    ∧ ((createSuccess (createOptimistic ⟨[nA], false, false, false, none, some 1⟩
        (-5) "T") (-5) n7).notes.countP (fun n => n.id = (-5 : Int))) = 0
    ∧ (createSuccess (createOptimistic ⟨[nA], false, false, false, none, some 1⟩
        (-5) "T") (-5) n7).notes.head? = some n7
    ∧ (createSuccess (createOptimistic ⟨[nA], false, false, false, none, some 1⟩
        (-5) "T") (-5) n7).notes.tail
        = (createOptimistic ⟨[nA], false, false, false, none, some 1⟩
            (-5) "T").notes.filter (fun n => n.id ≠ (-5 : Int))
    ∧ (createSuccess (createOptimistic ⟨[nA], false, false, false, none, some 1⟩
        (-5) "T") (-5) n7).selectedId = some n7.id :=
  create_success_reconciliation
    (createOptimistic ⟨[nA], false, false, false, none, some 1⟩ (-5) "T")
    (-5) n7 (by decide) (by decide)

/-- C9: the edit intents are pure local collection maps: editing title or
content for a given id leaves the length unchanged, leaves every note at a
position whose id differs from the target identically unchanged, and does
not touch the selection, the error slot, or any busy flag.  (There is no
network component in these handlers at all: they are synchronous
`setNotes` calls.) -/
theorem edit_frame (s : AppState) (id : Int) (v : String) :
    ((editTitle s id v).notes.length = s.notes.length
      ∧ (∀ (i : Nat) (n : Note), s.notes[i]? = some n → n.id ≠ id →
          (editTitle s id v).notes[i]? = some n)
      ∧ (editTitle s id v).selectedId = s.selectedId
      ∧ (editTitle s id v).error = s.error
      ∧ (editTitle s id v).loadingList = s.loadingList
      ∧ (editTitle s id v).loadingSave = s.loadingSave
      ∧ (editTitle s id v).loadingDelete = s.loadingDelete)
    ∧ ((editContent s id v).notes.length = s.notes.length
      ∧ (∀ (i : Nat) (n : Note), s.notes[i]? = some n → n.id ≠ id →
          (editContent s id v).notes[i]? = some n)
      ∧ (editContent s id v).selectedId = s.selectedId
      ∧ (editContent s id v).error = s.error
      ∧ (editContent s id v).loadingList = s.loadingList
      ∧ (editContent s id v).loadingSave = s.loadingSave
      ∧ (editContent s id v).loadingDelete = s.loadingDelete) := by
  refine ⟨⟨?_, ?_, rfl, rfl, rfl, rfl, rfl⟩, ⟨?_, ?_, rfl, rfl, rfl, rfl, rfl⟩⟩
  · simp [editTitle]
  · intro i n hi hne
    simp [editTitle, List.getElem?_map, hi, hne]
  · simp [editContent]
  · intro i n hi hne
    simp [editContent, List.getElem?_map, hi, hne]

/-- Witness for C9: in the collection `[nA, nB]`, editing the title of
note 1 leaves the note at position 1 (id 2) the identical value `nB`. -/
theorem edit_frame_witness :
    (editTitle ⟨[nA, nB], false, false, false, none, none⟩ 1 "z").notes[1]?
      = some nB :=
  (edit_frame ⟨[nA, nB], false, false, false, none, none⟩ 1 "z").1.2.1 1 nB
    (by decide) (by decide)

/-- C8 counterexample: with collection `[n0]` and Selection `some 0` (a
Selection exists: note id 0, a legal server id, is selected), a successful
refresh returning `[nA]` moves the Selection to 1 instead of leaving it
unchanged, because the guard `!selectedId` on line 100 treats the number 0
as falsy. -/
theorem refresh_reselects_over_zero_selection :
    (⟨[n0], false, false, false, none, some 0⟩ : AppState).selectedId = some 0
    ∧ (fetchNotes ⟨[n0], false, false, false, none, some 0⟩
        (.ok [nA])).selectedId = some 1 :=
  ⟨rfl, rfl⟩

/-- C8 (amended): a successful `refresh()` replaces the collection
wholesale and clears the error; the first fetched note becomes selected
exactly when the prior Selection is JS-falsy (none, or the id 0) and the
fetched collection is non-empty; otherwise the Selection is left
unchanged. -/
theorem refresh_success_spec (s : AppState) (data : List Note) :
    (fetchNotes s (.ok data)).notes = data
    ∧ (fetchNotes s (.ok data)).error = none
    ∧ (fetchNotes s (.ok data)).loadingList = false
    ∧ (0 < data.length → jsSelFalsy s.selectedId = true →
        (fetchNotes s (.ok data)).selectedId = data.head?.map Note.id)
    ∧ (jsSelFalsy s.selectedId = false →
        (fetchNotes s (.ok data)).selectedId = s.selectedId)
    ∧ (data = [] → (fetchNotes s (.ok data)).selectedId = s.selectedId) := by
  have hmain : fetchNotes s (.ok data)
      = if 0 < data.length ∧ jsSelFalsy s.selectedId then
          { s with notes := data, selectedId := data.head?.map Note.id,
                   error := none, loadingList := false }
        else
          { s with notes := data, error := none, loadingList := false } := by
    simp only [fetchNotes, fetchStart, fetchSettle]
    split <;> rfl
  rw [hmain]
  by_cases hc : 0 < data.length ∧ jsSelFalsy s.selectedId
  · rw [if_pos hc]
    refine ⟨rfl, rfl, rfl, fun _ _ => rfl, ?_, ?_⟩
    · intro hfal
      rw [hc.2] at hfal
      cases hfal
    · intro hd
      subst hd
      exact absurd hc.1 (by simp)
  · rw [if_neg hc]
    refine ⟨rfl, rfl, rfl, ?_, fun _ => rfl, fun _ => rfl⟩
    intro hlen hfal
    exact absurd ⟨hlen, hfal⟩ hc

/-- Witness for C8 (amended): refreshing from the empty no-selection state
with data `[nA, nB]` selects the head note, id 1. -/
theorem refresh_success_spec_witness :
    (fetchNotes sEmpty (.ok [nA, nB])).selectedId
      = ([nA, nB].head?).map Note.id :=
  (refresh_success_spec sEmpty [nA, nB]).2.2.2.1 (by decide) (by decide)

/-- C4 counterexample: the failure path of `createNote` does not run any
`removeById(pendingId)`: immediately after the failure step (an observable
point — the synchronous block has ended and the rollback fetch is merely
in flight) the pending note is still in the collection; and once that
rollback refresh succeeds, the error slot is `none`, not set — the claim's
"removes the pending-id Note ... and the error is set" fails on both
counts at this concrete input. -/
theorem create_failure_keeps_pending_until_resync :
    mkOptimistic (-9) "T" ∈
      (createFail (createOptimistic sEmpty (-9) "T")
        "Failed to create note (502)").notes
    ∧ (createFailRollback sEmpty (-9) "T" "Failed to create note (502)"
        (.ok [nA])).error = none := by
  decide

/-- C4 (amended): on `create()` failure the code sets the error and
triggers a full refetch without removing the pending note directly; the
pending note remains in place (and the error holds the create failure's
message) until the resync response arrives.  If the resync succeeds, the
collection is replaced wholesale by the fetched result — so no pending-id
note remains, the fetched data containing no pending id — and the error
slot is cleared by that success. -/
theorem create_failure_rollback (s : AppState) (tempId : Int)
    (now msg : String) (data : List Note)
    (h : tempId ∉ data.map Note.id) :
    (createFail (createOptimistic s tempId now) msg).notes
        = mkOptimistic tempId now :: s.notes
    ∧ (createFail (createOptimistic s tempId now) msg).error = some msg
    ∧ (createFailRollback s tempId now msg (.ok data)).notes = data
    ∧ (createFailRollback s tempId now msg (.ok data)).notes.countP
        (fun n => n.id = tempId) = 0
    ∧ (createFailRollback s tempId now msg (.ok data)).error = none := by
  have hnotes : (createFailRollback s tempId now msg (.ok data)).notes = data := by
    simp only [createFailRollback, fetchSettle]
    split <;> rfl
  refine ⟨rfl, rfl, hnotes, ?_, rfl⟩
  rw [hnotes, List.countP_eq_zero]
  intro a ha
  simp only [decide_eq_true_eq]
  intro hat
  exact h (List.mem_map.mpr ⟨a, ha, hat⟩)

/-- Witness for C4 (amended): a create from `[nA]` with pending id -8
fails and its rollback refresh returns `[nA, nB]`; the final collection is
`[nA, nB]`, free of the pending id, with the error cleared. -/
theorem create_failure_rollback_witness :
    (createFail (createOptimistic ⟨[nA], false, false, false, none, some 1⟩
        (-8) "T") "Failed to create note (503)").notes
        = mkOptimistic (-8) "T" :: [nA]
    ∧ (createFail (createOptimistic ⟨[nA], false, false, false, none, some 1⟩
        (-8) "T") "Failed to create note (503)").error
        = some "Failed to create note (503)"
    ∧ (createFailRollback ⟨[nA], false, false, false, none, some 1⟩ (-8) "T"
        "Failed to create note (503)" (.ok [nA, nB])).notes = [nA, nB]
    ∧ (createFailRollback ⟨[nA], false, false, false, none, some 1⟩ (-8) "T"
        "Failed to create note (503)" (.ok [nA, nB])).notes.countP
        (fun n => n.id = (-8 : Int)) = 0
    ∧ (createFailRollback ⟨[nA], false, false, false, none, some 1⟩ (-8) "T"
        "Failed to create note (503)" (.ok [nA, nB])).error = none :=
  create_failure_rollback ⟨[nA], false, false, false, none, some 1⟩ (-8) "T"
    "Failed to create note (503)" [nA, nB] (by decide)

/-- C2 counterexample: the random pending id has no collision check, and
the colliding state is reachable: a create whose remote call fails and
whose rollback refresh also fails (e.g. the server went down) ends with
the pending note still in the collection and `loadingSave` cleared, so a
second create can be issued; if its random draw produces the same value
(here -7 again), the collection holds two notes with id -7 — the pending
id synthesized by `create()` is NOT guaranteed distinct from every id in
the store, and pairwise distinctness of ids is broken at an observable
point. -/
theorem create_pending_id_collision :
    (((createFailRollback sEmpty (-7) "2024-01-01" "Failed to create note (500)"
        (.error "Failed to load notes (500)")).notes.map Note.id).Nodup)
    ∧ ¬ (((createOptimistic
          (createFailRollback sEmpty (-7) "2024-01-01"
            "Failed to create note (500)" (.error "Failed to load notes (500)"))
          (-7) "2024-01-03").notes.map Note.id).Nodup) := by
  decide

/-- C2 (amended): the optimistic insertion preserves pairwise distinctness
of ids exactly when the randomly drawn pending id differs from every id
currently in the store; the code itself performs no decrementing-counter
or collision-check guarantee, so this hypothesis is probabilistic, not
ensured. -/
theorem create_pending_id_distinct (s : AppState) (tempId : Int) (now : String)
    (hs : (s.notes.map Note.id).Nodup) (h : tempId ∉ s.notes.map Note.id) :
    ((createOptimistic s tempId now).notes.map Note.id).Nodup := by
  simp only [createOptimistic, mkOptimistic, List.map_cons, List.nodup_cons]
  exact ⟨h, hs⟩

/-- Witness for C2 (amended): inserting pending id -3 into the collection
`[nA, nB]` (ids 1, 2) keeps the ids pairwise distinct. -/
theorem create_pending_id_distinct_witness :
    ((createOptimistic ⟨[nA, nB], false, false, false, none, some 1⟩
        (-3) "T").notes.map Note.id).Nodup :=
  create_pending_id_distinct ⟨[nA, nB], false, false, false, none, some 1⟩
    (-3) "T" (by decide) (by decide)

/-! ### Helper lemmas for the selection invariant -/

/-- Characterization of `selOk`: the check holds exactly when every
selected id is the id of some note in the collection. -/
theorem selOk_eq_true_iff (s : AppState) :
    selOk s = true ↔ (∀ i, s.selectedId = some i → ∃ n ∈ s.notes, n.id = i) := by
  unfold selOk
  cases h : s.selectedId with
  | none => simp
  | some i => simp [List.any_eq_true]

/-- The success branch of `fetchSettle` as a single conditional record. -/
theorem fetchSettle_ok (closureSel : Option Int) (s : AppState)
    (data : List Note) :
    fetchSettle closureSel s (.ok data)
      = if 0 < data.length ∧ jsSelFalsy closureSel then
          { s with notes := data, selectedId := data.head?.map Note.id,
                   error := none, loadingList := false }
        else { s with notes := data, error := none, loadingList := false } := by
  simp only [fetchSettle]
  split <;> rfl

/-- Mapping an id-preserving function over the collection preserves the
existence of a note with a given id. -/
theorem exists_id_map_of_id_preserved (l : List Note) (f : Note → Note)
    (hf : ∀ n, (f n).id = n.id) (i : Int)
    (h : ∃ n ∈ l, n.id = i) : ∃ n ∈ l.map f, n.id = i := by
  obtain ⟨n, hn, hid⟩ := h
  exact ⟨f n, List.mem_map_of_mem f hn, by rw [hf]; exact hid⟩

/-- C1 counterexample: in the state with collection `[n5]` and Selection 5
the invariant holds, but a successful refresh returning `[nA]` (which no
longer contains id 5) replaces the collection without repairing the
Selection: the invariant is broken at the resulting observable point, so
refresh does NOT restore the invariant whenever it changes the
collection. -/
theorem refresh_leaves_dangling_selection :
    selOk ⟨[n5], false, false, false, none, some 5⟩ = true
    ∧ selOk (fetchNotes ⟨[n5], false, false, false, none, some 5⟩
        (.ok [nA])) = false := by
  decide

/-- C1 (amended): assuming the Selection invariant holds, every operation
except a settling fetch preserves it unconditionally — edits, save
(success or failure), delete (success or failure), both synchronous create
phases, the create-failure step, a failed refresh, and a failed rollback
refresh.  A successful (rollback) refresh, however, does not repair the
Selection: it preserves the invariant only when the prior selection is
none, or the closure-read selection is JS-falsy with non-empty data (the
head is then selected), or the selected id appears in the fetched data;
otherwise the stale selection dangles. -/
theorem selection_invariant_preservation (s : AppState) (hs : selOk s = true) :
    (∀ id v, selOk (editTitle s id v) = true)
    ∧ (∀ id v, selOk (editContent s id v) = true)
    ∧ (∀ r, selOk (saveNote s r) = true)
    ∧ (∀ id r, selOk (deleteNote s id r) = true)
    ∧ (∀ tempId now, selOk (createOptimistic s tempId now) = true)
    ∧ (∀ tempId created, selOk (createSuccess s tempId created) = true)
    ∧ (∀ msg, selOk (createFail s msg) = true)
    ∧ (∀ msg, selOk (fetchNotes s (.error msg)) = true)
    ∧ (∀ data, (s.selectedId = none
          ∨ (0 < data.length ∧ jsSelFalsy s.selectedId = true)
          ∨ (∃ n ∈ data, s.selectedId = some n.id)) →
        selOk (fetchNotes s (.ok data)) = true)
    ∧ (∀ tempId now msg refreshMsg,
        selOk (createFailRollback s tempId now msg (.error refreshMsg)) = true)
    ∧ (∀ tempId now msg data, 0 < data.length → jsSelFalsy s.selectedId = true →
        selOk (createFailRollback s tempId now msg (.ok data)) = true) := by
  rw [selOk_eq_true_iff] at hs
  refine ⟨?_, ?_, ?_, ?_, ?_, ?_, ?_, ?_, ?_, ?_, ?_⟩
  · intro id v
    rw [selOk_eq_true_iff]
    intro i hi
    refine exists_id_map_of_id_preserved _ _ ?_ i (hs i hi)
    intro n
    by_cases h : n.id = id <;> simp [h]
  · intro id v
    rw [selOk_eq_true_iff]
    intro i hi
    refine exists_id_map_of_id_preserved _ _ ?_ i (hs i hi)
    intro n
    by_cases h : n.id = id <;> simp [h]
  · intro r
    cases r with
    | ok saved =>
        rw [selOk_eq_true_iff]
        intro i hi
        refine exists_id_map_of_id_preserved _ _ ?_ i (hs i hi)
        intro n
        by_cases h : n.id = saved.id <;> simp [h]
    | error msg =>
        rw [selOk_eq_true_iff]
        exact hs
  · intro id r
    cases r with
    | ok u =>
        rw [selOk_eq_true_iff]
        by_cases hsel : s.selectedId = some id
        · rw [show (deleteNote s id (.ok u)).selectedId
              = ((s.notes.filter (fun n => n.id ≠ id)).head?).map Note.id
            from by simp only [deleteNote]; rw [if_pos hsel]]
          intro i hi
          cases hh : (s.notes.filter (fun n => n.id ≠ id)).head? with
          | none => rw [hh] at hi; cases hi
          | some m =>
              rw [hh] at hi
              have him : i = m.id := by
                simpa using hi.symm
              exact ⟨m, List.mem_of_mem_head? hh, him.symm⟩
        · rw [show (deleteNote s id (.ok u)).selectedId = s.selectedId
            from by simp only [deleteNote]; rw [if_neg hsel]]
          intro i hi
          obtain ⟨n, hn, hid⟩ := hs i hi
          have hne : n.id ≠ id := by
            intro hcontra
            apply hsel
            rw [hi, ← hid, hcontra]
          exact ⟨n, List.mem_filter.mpr ⟨hn, by simpa using hne⟩, hid⟩
    | error msg =>
        rw [selOk_eq_true_iff]
        exact hs
  · intro tempId now
    rw [selOk_eq_true_iff]
    intro i hi
    have h2 : some tempId = some i := hi
    have : tempId = i := Option.some.inj h2
    exact ⟨mkOptimistic tempId now, List.mem_cons_self _ _, this⟩
  · intro tempId created
    rw [selOk_eq_true_iff]
    intro i hi
    have h2 : some created.id = some i := hi
    exact ⟨created, List.mem_cons_self _ _, Option.some.inj h2⟩
  · intro msg
    rw [selOk_eq_true_iff]
    exact hs
  · intro msg
    rw [selOk_eq_true_iff]
    exact hs
  · intro data hdisj
    rw [fetchNotes, fetchSettle_ok, selOk_eq_true_iff]
    by_cases hc : 0 < data.length ∧ jsSelFalsy s.selectedId = true
    · rw [if_pos hc]
      intro i hi
      cases data with
      | nil => exact absurd hc.1 (by simp)
      | cons d ds =>
          have h2 : some d.id = some i := hi
          exact ⟨d, List.mem_cons_self _ _, Option.some.inj h2⟩
    · rw [if_neg hc]
      intro i hi
      rcases hdisj with hnone | hfal | hex
      · have h2 : s.selectedId = some i := hi
        rw [hnone] at h2
        cases h2
      · exact absurd ⟨hfal.1, hfal.2⟩ hc
      · obtain ⟨n, hn, hsel⟩ := hex
        have h2 : s.selectedId = some i := hi
        rw [hsel] at h2
        exact ⟨n, hn, Option.some.inj h2⟩
  · intro tempId now msg refreshMsg
    rw [selOk_eq_true_iff]
    intro i hi
    have h2 : some tempId = some i := hi
    exact ⟨mkOptimistic tempId now, List.mem_cons_self _ _, Option.some.inj h2⟩
  · intro tempId now msg data hlen hfal
    rw [createFailRollback, fetchSettle_ok, selOk_eq_true_iff]
    rw [if_pos ⟨hlen, hfal⟩]
    intro i hi
    cases data with
    | nil => exact absurd hlen (by simp)
    | cons d ds =>
        have h2 : some d.id = some i := hi
        exact ⟨d, List.mem_cons_self _ _, Option.some.inj h2⟩

/-- Witness for C1 (amended): from the state with collection `[nA]` and
Selection 1 (invariant holds), a successful refresh returning `[nB, nA]`
— which still contains the selected id 1 — keeps the invariant. -/
theorem selection_invariant_preservation_witness :
    selOk (fetchNotes ⟨[nA], false, false, false, none, some 1⟩
      (.ok [nB, nA])) = true :=
  (selection_invariant_preservation ⟨[nA], false, false, false, none, some 1⟩
      (by decide)).2.2.2.2.2.2.2.2.1 [nB, nA] (by decide)
